import Mathlib

/-!
Shallow embedding of the gamification/progress engine of `statsService.ts`
(unipilot_deploy). The remote store row of the single user under
consideration is modelled explicitly; the asynchronous effects
(authentication lookup, store reads and writes, the wall clock hour) are
modelled by an environment `Env`. Store write attempts are numbered and
`Env.writeOk k` tells whether the k-th write attempt succeeds, so runs with
partial write failures are expressible. Wall-clock timestamp fields
(`last_message_at`, badge `unlockedAt`) are not modelled: the source only
ever writes them and never reads them back.
-/

/-- Badge record as used by the engine: id, display name, unlocked flag. -/
structure Badge where
  id : String
  name : String
  unlocked : Bool
  deriving DecidableEq, Repr

/-- Modelled from the spec: the static catalog `INITIAL_BADGES` is imported
from `../constants`, a file absent from the provided sources. The spec fixes
the catalog as the ordered list of badge definitions with unlock conditions
"first message" (freshman), "3 distinct topics" (explorer), "level ≥ 5"
(scholar), and "message sent between 22:00–06:00" (night_owl), all locked
by default. -/
def INITIAL_BADGES : List Badge :=
  [ { id := "freshman", name := "Freshman", unlocked := false },
    { id := "explorer", name := "Explorer", unlocked := false },
    { id := "scholar", name := "Scholar", unlocked := false },
    { id := "night_owl", name := "Night Owl", unlocked := false } ]

/-- The persisted `user_stats` row (store shape). `badges_unlocked` is the
list of persisted unlocked-badge ids: the source stores `{id, name,
unlockedAt}` objects but only ever reads the `id` field back. -/
structure Row where
  experience_points : Nat
  level : Nat
  total_messages : Nat
  badges_unlocked : List String
  topics_explored : List String
  deriving DecidableEq, Repr

/-- Store state: the row plus a counter of write attempts made so far
(used to consult the per-write success oracle). -/
structure St where
  row : Row
  nWrites : Nat
  deriving DecidableEq, Repr

/-- Modelled from the spec: the authentication boundary exposes
`getCurrentUserId() → identifier or absent` (`getUserId` in `authService`,
absent from the provided sources) — modelled as `userId`. `readOk` tells
whether a store read succeeds, `writeOk k` whether the k-th store write
attempt succeeds, and `hour` is the local hour `new Date().getHours()`. -/
structure Env where
  userId : Option String
  readOk : Bool
  writeOk : Nat → Bool
  hour : Nat

/-- In-memory `UserStats` shape returned by `getUserStats`. -/
structure UserStats where
  experience : Nat
  level : Nat
  badges : List Badge
  nextLevelXP : Nat
  topicsExplored : List String
  messagesCount : Nat
  deriving DecidableEq, Repr

/-- Source `calculateNextLevelXP`: XP threshold formula `level * 100`. -/
def calculateNextLevelXP (level : Nat) : Nat :=
  level * 100

/-- Source `calculateLevel`: `Math.floor(xp / 100) + 1` (non-negative xp,
so Nat floor division). -/
def calculateLevel (xp : Nat) : Nat :=
  xp / 100 + 1

/-- Default stats substituted for guests and on read failure. -/
def defaultStats : UserStats :=
  { experience := 0
    level := 1
    badges := INITIAL_BADGES
    nextLevelXP := 100
    topicsExplored := []
    messagesCount := 0 }

/-- Merge persisted unlocked ids into the catalog, exactly as
`getUserStats` does: each catalog badge is unlocked iff some persisted
entry has its id; persisted ids outside the catalog are dropped. -/
def mergeBadges (ids : List String) : List Badge :=
  INITIAL_BADGES.map (fun badge =>
    { badge with unlocked := ids.any (fun b => b == badge.id) })

/-- Source `getUserStats`: defaults for guests or on read failure,
otherwise the row translated to `UserStats` (level taken from the row as
stored, `nextLevelXP` recomputed from it). Read-only: does not change the
store state. -/
def getUserStats (env : Env) (st : St) : UserStats :=
  match env.userId with
  | none => defaultStats
  | some _ =>
    if env.readOk then
      { experience := st.row.experience_points
        level := st.row.level
        badges := mergeBadges st.row.badges_unlocked
        nextLevelXP := calculateNextLevelXP st.row.level
        topicsExplored := st.row.topics_explored
        messagesCount := st.row.total_messages }
    else defaultStats

/-- The partial-update argument of `updateUserStats`. -/
structure Updates where
  experience : Option Nat := none
  badges : Option (List Badge) := none
  topicsExplored : Option (List String) := none
  messagesCount : Option Nat := none
  deriving DecidableEq, Repr

/-- The row produced by one `updateUserStats` store write: experience
updates also set `level = calculateLevel xp`; badge updates persist only
the unlocked badges' ids; topic and message-count updates overwrite their
fields. -/
def applyUpdates (u : Updates) (r : Row) : Row :=
  let r1 := match u.experience with
    | some xp => { r with experience_points := xp, level := calculateLevel xp }
    | none => r
  let r2 := match u.badges with
    | some bs => { r1 with badges_unlocked := (bs.filter (fun b => b.unlocked)).map (fun b => b.id) }
    | none => r1
  let r3 := match u.topicsExplored with
    | some ts => { r2 with topics_explored := ts }
    | none => r2
  match u.messagesCount with
  | some n => { r3 with total_messages := n }
  | none => r3

/-- Source `updateUserStats`: throws `'User not authenticated'` when no
user id is available; otherwise performs one store write, which either
applies the updates or fails (the failure is re-thrown to the caller and
the row is unchanged). -/
def updateUserStats (env : Env) (u : Updates) (st : St) : Except String Unit × St :=
  match env.userId with
  | none => (Except.error "User not authenticated", st)
  | some _ =>
    if env.writeOk st.nWrites then
      (Except.ok (), { row := applyUpdates u st.row, nWrites := st.nWrites + 1 })
    else
      (Except.error "store write failed", { row := st.row, nWrites := st.nWrites + 1 })

/-- Sequencing of two awaited steps: a thrown failure in the first step
propagates and aborts the continuation, exactly as an un-caught rejected
`await` does in the source. -/
def andThen {α β : Type} (p : Except String α × St) (f : α → St → Except String β × St) :
    Except String β × St :=
  match p with
  | (Except.error e, st') => (Except.error e, st')
  | (Except.ok a, st1) => f a st1

/-- Source `addExperience`: read stats, add the delta, persist experience
(level is recomputed inside `updateUserStats`), and return the stale stats
patched with the new experience, level and threshold. -/
def addExperience (env : Env) (xpAmount : Nat) (st : St) : Except String UserStats × St :=
  let currentStats := getUserStats env st
  let newXP := currentStats.experience + xpAmount
  let newLevel := calculateLevel newXP
  andThen (updateUserStats env { experience := some newXP } st) (fun _ st' =>
    (Except.ok { currentStats with
        experience := newXP
        level := newLevel
        nextLevelXP := calculateNextLevelXP newLevel }, st'))

/-- Source `unlockBadge`: no-op returning false when the id is unknown to
the catalog or the badge is already unlocked; otherwise persist the badge
as unlocked and award +50 experience, returning true. -/
def unlockBadge (env : Env) (badgeId : String) (st : St) : Except String Bool × St :=
  let currentStats := getUserStats env st
  match currentStats.badges.find? (fun b => b.id == badgeId) with
  | none => (Except.ok false, st)
  | some badge =>
    if badge.unlocked then (Except.ok false, st)
    else
      let updatedBadges := currentStats.badges.map (fun b =>
        if b.id == badgeId then { b with unlocked := true } else b)
      andThen (updateUserStats env { badges := some updatedBadges } st) (fun _ st1 =>
        andThen (addExperience env 50 st1) (fun _ st2 => (Except.ok true, st2)))

/-- Source `addExploredTopic`: no-op when the topic is already present
(case-sensitive exact match); otherwise append it, persist, and when the
resulting topic count reaches 3 trigger the explorer badge unlock. -/
def addExploredTopic (env : Env) (topic : String) (st : St) : Except String Unit × St :=
  let currentStats := getUserStats env st
  if topic ∈ currentStats.topicsExplored then (Except.ok (), st)
  else
    let updatedTopics := currentStats.topicsExplored ++ [topic]
    andThen (updateUserStats env { topicsExplored := some updatedTopics } st) (fun _ st1 =>
      if updatedTopics.length ≥ 3 then
        andThen (unlockBadge env "explorer" st1) (fun _ st2 => (Except.ok (), st2))
      else (Except.ok (), st1))

/-- Source `incrementMessageCount`: persist count+1, award +10 experience,
unlock freshman exactly when the new count is 1, and unlock night_owl when
the local hour is in [22:00, 06:00). -/
def incrementMessageCount (env : Env) (st : St) : Except String Unit × St :=
  let currentStats := getUserStats env st
  let newCount := currentStats.messagesCount + 1
  andThen (updateUserStats env { messagesCount := some newCount } st) (fun _ st1 =>
    andThen (addExperience env 10 st1) (fun _ st2 =>
      andThen (if newCount == 1 then unlockBadge env "freshman" st2 else (Except.ok false, st2))
        (fun _ st3 =>
          if 22 ≤ env.hour ∨ env.hour < 6 then
            andThen (unlockBadge env "night_owl" st3) (fun _ st4 => (Except.ok (), st4))
          else (Except.ok (), st3))))

/-- Result shape of `processUserInteraction`. -/
structure InteractionResult where
  newBadges : List Badge
  leveledUp : Bool
  deriving DecidableEq, Repr

/-- The positional badge diff of `processUserInteraction`:
`newStats.badges.filter((badge, idx) => badge.unlocked &&
!oldStats.badges[idx].unlocked)`. An out-of-bounds index would throw in the
source; it is modelled as a skip, and the catalog-alignment theorem below
shows the two snapshot lists always have equal length, so that case is
never reached. -/
def badgeDiff (newB oldB : List Badge) : List Badge :=
  newB.enum.filterMap (fun p =>
    match oldB.get? p.1 with
    | some ob => if p.2.unlocked && !ob.unlocked then some p.2 else none
    | none => none)

/-- The `for (const topic of topics)` loop of `processUserInteraction`:
sequential `addExploredTopic` calls, stopping at the first failure. -/
def addTopics (env : Env) (topics : List String) (st : St) : Except String Unit × St :=
  match topics with
  | [] => (Except.ok (), st)
  | t :: rest =>
    andThen (addExploredTopic env t st) (fun _ st1 => addTopics env rest st1)

/-- Source `processUserInteraction`: snapshot, increment message count, add
topics, snapshot again, compute the level-up flag and positional badge
diff, then (after the diff is computed) unlock scholar when the new level
is at least 5. The message text is never inspected. -/
def processUserInteraction (env : Env) (messageText : String) (topics : List String) (st : St) :
    Except String InteractionResult × St :=
  let _ := messageText
  let oldStats := getUserStats env st
  andThen (incrementMessageCount env st) (fun _ st1 =>
    andThen (addTopics env topics st1) (fun _ st2 =>
      let newStats := getUserStats env st2
      let leveledUp := decide (newStats.level > oldStats.level)
      let newBadges := badgeDiff newStats.badges oldStats.badges
      if newStats.level ≥ 5 then
        andThen (unlockBadge env "scholar" st2) (fun _ st3 =>
          (Except.ok { newBadges := newBadges, leveledUp := leveledUp }, st3))
      else (Except.ok { newBadges := newBadges, leveledUp := leveledUp }, st2)))

/-- Source `generateUserContextSummary`: read-only formatting of the
current stats (after the template literal's trim). -/
def generateUserContextSummary (env : Env) (st : St) : String :=
  let stats := getUserStats env st
  let topics := String.intercalate ", " stats.topicsExplored
  let badgeNames := String.intercalate ", "
    ((stats.badges.filter (fun b => b.unlocked)).map (fun b => b.name))
  "User Level: " ++ toString stats.level ++ "\n" ++
  "Total Messages: " ++ toString stats.messagesCount ++ "\n" ++
  "Topics Explored: " ++ (if topics = "" then "None yet" else topics) ++ "\n" ++
  "Unlocked Badges: " ++ (if badgeNames = "" then "None yet" else badgeNames)

/-- Source `resetUserStats`: throws `'User not authenticated'` without a
user id; otherwise one store write zeroing the row. -/
def resetUserStats (env : Env) (st : St) : Except String Unit × St :=
  match env.userId with
  | none => (Except.error "User not authenticated", st)
  | some _ =>
    if env.writeOk st.nWrites then
      (Except.ok (),
       { row := { experience_points := 0, level := 1, total_messages := 0,
                  badges_unlocked := [], topics_explored := [] },
         nWrites := st.nWrites + 1 })
    else
      (Except.error "store write failed", { row := st.row, nWrites := st.nWrites + 1 })

/-- Environment of an authenticated session in which every store access
succeeds, at local hour `hr`. -/
def goodEnv (u : String) (hr : Nat) : Env :=
  { userId := some u, readOk := true, writeOk := fun _ => true, hour := hr }

/-- Environment of an authenticated session in which every store write
fails. -/
def failWriteEnv (u : String) (ro : Bool) (hr : Nat) : Env :=
  { userId := some u, readOk := ro, writeOk := fun _ => false, hour := hr }

/-- The default (fresh-user) persisted row. -/
def freshRow : Row :=
  { experience_points := 0, level := 1, total_messages := 0,
    badges_unlocked := [], topics_explored := [] }

/-- The spec invariant: the persisted level always equals
`floor(experience / 100) + 1`. -/
def levelInv (r : Row) : Prop :=
  r.level = calculateLevel r.experience_points

/-- One public engine operation, as invokable by a caller. -/
inductive EngineOp where
  | getStats
  | summary
  | update (u : Updates)
  | addXp (k : Nat)
  | unlock (badgeId : String)
  | addTopic (t : String)
  | incMsg
  | processMsg (msg : String) (topics : List String)
  | reset

/-- The store state after running one engine operation (read-only
operations leave it unchanged; a failed operation leaves whatever its last
completed write produced). -/
def runOp (env : Env) (op : EngineOp) (st : St) : St :=
  match op with
  | EngineOp.getStats => st
  | EngineOp.summary => st
  | EngineOp.update u => (updateUserStats env u st).2
  | EngineOp.addXp k => (addExperience env k st).2
  | EngineOp.unlock badgeId => (unlockBadge env badgeId st).2
  | EngineOp.addTopic t => (addExploredTopic env t st).2
  | EngineOp.incMsg => (incrementMessageCount env st).2
  | EngineOp.processMsg msg topics => (processUserInteraction env msg topics st).2
  | EngineOp.reset => (resetUserStats env st).2

/-- The store state after a sequence of engine operations. -/
def runOps (env : Env) (ops : List EngineOp) (st : St) : St :=
  ops.foldl (fun s op => runOp env op s) st

lemma mem_stored_of_unlocked (bs : List Badge) (b : Badge) (hb : b ∈ bs) (hu : b.unlocked = true) :
    b.id ∈ (bs.filter (fun x => x.unlocked)).map (fun x => x.id) :=
  List.mem_map.2 ⟨b, List.mem_filter.2 ⟨hb, by simp [hu]⟩, rfl⟩

lemma any_eq_false_of_not_mem (ids : List String) (a : String) (h : a ∉ ids) :
    ids.any (fun b => b == a) = false := by
  rw [List.any_eq_false]
  intro x hx
  simp only [beq_iff_eq]
  intro hxa
  exact h (hxa ▸ hx)

lemma getUserStats_badges_map_id (env : Env) (st : St) :
    (getUserStats env st).badges.map (fun b => b.id) = INITIAL_BADGES.map (fun b => b.id) := by
  unfold getUserStats
  match env.userId with
  | none => rfl
  | some _ =>
    by_cases h : env.readOk <;>
      simp [h, defaultStats, mergeBadges, List.map_map, Function.comp]

lemma find?_eq_none_of_unknown (env : Env) (st : St) (badgeId : String)
    (h : ∀ b ∈ INITIAL_BADGES, b.id ≠ badgeId) :
    (getUserStats env st).badges.find? (fun b => b.id == badgeId) = none := by
  rw [List.find?_eq_none]
  intro x hx
  have hid : x.id ∈ INITIAL_BADGES.map (fun b => b.id) := by
    rw [← getUserStats_badges_map_id env st]
    exact List.mem_map.2 ⟨x, hx, rfl⟩
  obtain ⟨b, hb, hbx⟩ := List.mem_map.1 hid
  simp only [beq_iff_eq]
  rw [← hbx]
  exact h b hb

lemma unlockBadge_noop_unknown (env : Env) (badgeId : String) (st : St)
    (h : ∀ b ∈ INITIAL_BADGES, b.id ≠ badgeId) :
    unlockBadge env badgeId st = (Except.ok false, st) := by
  simp only [unlockBadge, find?_eq_none_of_unknown env st badgeId h]

lemma unlockBadge_noop_of_mem (u : String) (hr : Nat) (badgeId : String) (st : St)
    (h1 : badgeId ∈ st.row.badges_unlocked) :
    unlockBadge (goodEnv u hr) badgeId st = (Except.ok false, st) := by
  have hstats : (getUserStats (goodEnv u hr) st).badges = mergeBadges st.row.badges_unlocked := by
    simp [getUserStats, goodEnv]
  rcases h2 : (mergeBadges st.row.badges_unlocked).find? (fun b => b.id == badgeId) with _ | b
  · simp only [unlockBadge, hstats, h2]
  · have hmem := List.mem_of_find?_eq_some h2
    have hpb := List.find?_some h2
    rw [mergeBadges] at hmem
    obtain ⟨c, hc, hcb⟩ := List.mem_map.1 hmem
    have hbid : b.id = c.id := by rw [← hcb]
    have hcid : c.id = badgeId := by
      have hx := hpb
      rw [hbid] at hx
      exact beq_iff_eq.1 hx
    have hunl : b.unlocked = true := by
      rw [← hcb]
      show st.row.badges_unlocked.any (fun x => x == c.id) = true
      rw [hcid]
      exact List.any_eq_true.2 ⟨badgeId, h1, by simp⟩
    simp only [unlockBadge, hstats, h2, hunl, if_true]

lemma levelInv_applyUpdates (u : Updates) (r : Row) (h : levelInv r) :
    levelInv (applyUpdates u r) := by
  rcases u with ⟨e, b, t, m⟩
  cases e <;> cases b <;> cases t <;> cases m <;>
    simp_all [applyUpdates, levelInv]

lemma levelInv_updateUserStats (env : Env) (u : Updates) (st : St) (h : levelInv st.row) :
    levelInv ((updateUserStats env u st).2).row := by
  unfold updateUserStats
  cases env.userId
  · exact h
  · dsimp only
    by_cases hw : env.writeOk st.nWrites
    · simpa [hw] using levelInv_applyUpdates u st.row h
    · simpa [hw] using h

lemma levelInv_andThen {α β : Type} (p : Except String α × St)
    (f : α → St → Except String β × St) (hp : levelInv p.2.row)
    (hf : ∀ a st1, levelInv st1.row → levelInv ((f a st1).2).row) :
    levelInv ((andThen p f).2).row := by
  rcases p with ⟨res, st'⟩
  cases res
  · exact hp
  · exact hf _ _ hp

lemma levelInv_addExperience (env : Env) (k : Nat) (st : St) (h : levelInv st.row) :
    levelInv ((addExperience env k st).2).row := by
  simp only [addExperience]
  exact levelInv_andThen _ _ (levelInv_updateUserStats env _ st h) (fun a st1 h1 => h1)

lemma levelInv_unlockBadge (env : Env) (badgeId : String) (st : St) (h : levelInv st.row) :
    levelInv ((unlockBadge env badgeId st).2).row := by
  simp only [unlockBadge]
  rcases hfind : (getUserStats env st).badges.find? (fun b => b.id == badgeId) with _ | badge
  · simp only [hfind]
    exact h
  · by_cases hb : badge.unlocked
    · simpa [hfind, hb] using h
    · simp only [hfind, hb, Bool.false_eq_true, if_false]
      exact levelInv_andThen _ _ (levelInv_updateUserStats env _ st h)
        (fun a st1 h1 => levelInv_andThen _ _ (levelInv_addExperience env 50 st1 h1)
          (fun a2 st2 h2 => h2))

lemma levelInv_addExploredTopic (env : Env) (t : String) (st : St) (h : levelInv st.row) :
    levelInv ((addExploredTopic env t st).2).row := by
  simp only [addExploredTopic]
  by_cases hm : t ∈ (getUserStats env st).topicsExplored
  · simpa [hm] using h
  · simp only [hm, if_false]
    refine levelInv_andThen _ _ (levelInv_updateUserStats env _ st h) (fun a st1 h1 => ?_)
    split
    · exact levelInv_andThen _ _ (levelInv_unlockBadge env "explorer" st1 h1)
        (fun a2 st2 h2 => h2)
    · exact h1

lemma levelInv_incrementMessageCount (env : Env) (st : St) (h : levelInv st.row) :
    levelInv ((incrementMessageCount env st).2).row := by
  simp only [incrementMessageCount]
  refine levelInv_andThen _ _ (levelInv_updateUserStats env _ st h) (fun a st1 h1 => ?_)
  refine levelInv_andThen _ _ (levelInv_addExperience env 10 st1 h1) (fun a2 st2 h2 => ?_)
  refine levelInv_andThen _ _ ?_ (fun a3 st3 h3 => ?_)
  · split
    · exact levelInv_unlockBadge env "freshman" st2 h2
    · exact h2
  · split
    · exact levelInv_andThen _ _ (levelInv_unlockBadge env "night_owl" st3 h3)
        (fun a4 st4 h4 => h4)
    · exact h3

lemma levelInv_addTopics (env : Env) (topics : List String) (st : St) (h : levelInv st.row) :
    levelInv ((addTopics env topics st).2).row := by
  induction topics generalizing st with
  | nil => exact h
  | cons t rest ih =>
    simp only [addTopics]
    exact levelInv_andThen _ _ (levelInv_addExploredTopic env t st h) (fun a st1 h1 => ih st1 h1)

lemma levelInv_processUserInteraction (env : Env) (msg : String) (topics : List String)
    (st : St) (h : levelInv st.row) :
    levelInv ((processUserInteraction env msg topics st).2).row := by
  simp only [processUserInteraction]
  refine levelInv_andThen _ _ (levelInv_incrementMessageCount env st h) (fun a st1 h1 => ?_)
  refine levelInv_andThen _ _ (levelInv_addTopics env topics st1 h1) (fun a2 st2 h2 => ?_)
  split
  · exact levelInv_andThen _ _ (levelInv_unlockBadge env "scholar" st2 h2) (fun a3 st3 h3 => h3)
  · exact h2

lemma levelInv_resetUserStats (env : Env) (st : St) (h : levelInv st.row) :
    levelInv ((resetUserStats env st).2).row := by
  unfold resetUserStats
  cases env.userId
  · exact h
  · dsimp only
    by_cases hw : env.writeOk st.nWrites
    · simp [hw, levelInv, calculateLevel]
    · simpa [hw] using h

lemma levelInv_runOp (env : Env) (op : EngineOp) (st : St) (h : levelInv st.row) :
    levelInv (runOp env op st).row := by
  cases op with
  | getStats => exact h
  | summary => exact h
  | update u => exact levelInv_updateUserStats env u st h
  | addXp k => exact levelInv_addExperience env k st h
  | unlock badgeId => exact levelInv_unlockBadge env badgeId st h
  | addTopic t => exact levelInv_addExploredTopic env t st h
  | incMsg => exact levelInv_incrementMessageCount env st h
  | processMsg msg topics => exact levelInv_processUserInteraction env msg topics st h
  | reset => exact levelInv_resetUserStats env st h

/-- C1: for a fresh user (experience 0, level 1, zero messages, no topics, no
badges), one call to processUserInteraction with any message text and topics
["food", "transit"] returns leveledUp = false and a newBadges list containing
exactly the freshman badge (so "freshman" but not "explorer"), and leaves the
stored progress with experience 60 (10 for the message plus 50 for the
freshman bonus) and level 1, for every local hour outside [22:00, 06:00) and
with every store write succeeding. -/
theorem processUserInteraction_fresh_first_message
    (u msg : String) (hr : Nat) (h6 : 6 ≤ hr) (h22 : hr < 22) :
    processUserInteraction (goodEnv u hr) msg ["food", "transit"] { row := freshRow, nWrites := 0 }
      = (Except.ok { newBadges := [{ id := "freshman", name := "Freshman", unlocked := true }],
                     leveledUp := false },
         { row := { experience_points := 60, level := 1, total_messages := 1,
                    badges_unlocked := ["freshman"], topics_explored := ["food", "transit"] },
           nWrites := 6 }) := by
  have hnight : ¬ (22 ≤ hr ∨ hr < 6) := by omega
  simp [processUserInteraction, incrementMessageCount, addTopics, addExploredTopic, unlockBadge,
        addExperience, andThen, updateUserStats, getUserStats, applyUpdates, mergeBadges,
        badgeDiff, calculateLevel, calculateNextLevelXP, defaultStats, INITIAL_BADGES, freshRow,
        goodEnv, hnight]
  decide

/-- C1 witness: the theorem instantiated at hour 12 and message "hello". -/
theorem processUserInteraction_fresh_first_message_witness :
    (6 ≤ 12 ∧ 12 < 22)
    ∧ processUserInteraction (goodEnv "u" 12) "hello" ["food", "transit"]
        { row := freshRow, nWrites := 0 }
      = (Except.ok { newBadges := [{ id := "freshman", name := "Freshman", unlocked := true }],
                     leveledUp := false },
         { row := { experience_points := 60, level := 1, total_messages := 1,
                    badges_unlocked := ["freshman"], topics_explored := ["food", "transit"] },
           nWrites := 6 }) :=
  ⟨⟨by decide, by decide⟩,
   processUserInteraction_fresh_first_message "u" "hello" 12 (by decide) (by decide)⟩

/-- C2 counterexample: the claim says the User-not-authenticated failure "is
raised only by resetProgress"; but incrementMessageCount — an engine operation
other than resetProgress — raises exactly that failure when no user id is
available, because updateUserStats throws it before any guest fallback. -/
theorem incrementMessageCount_guest_raises_auth :
    incrementMessageCount { userId := none, readOk := true, writeOk := fun _ => true, hour := 12 }
      { row := freshRow, nWrites := 0 }
    = (Except.error "User not authenticated", { row := freshRow, nWrites := 0 }) := rfl

/-- C2 amended: with no user id available, the "User not authenticated"
failure is raised by resetUserStats and equally by every mutating engine
operation that reaches a store write (updateUserStats, addExperience,
incrementMessageCount, addExploredTopic on a fresh topic, unlockBadge on a
catalog badge, processUserInteraction); only the read operations
(getUserStats, generateUserContextSummary) never raise and degrade to the
default progress. -/
theorem guest_mode_auth_behavior (ro : Bool) (w : Nat → Bool) (hr : Nat) (st : St)
    (uu : Updates) (k : Nat) (msg t : String) (ts : List String) :
    (getUserStats { userId := none, readOk := ro, writeOk := w, hour := hr } st = defaultStats)
    ∧ (resetUserStats { userId := none, readOk := ro, writeOk := w, hour := hr } st
        = (Except.error "User not authenticated", st))
    ∧ (updateUserStats { userId := none, readOk := ro, writeOk := w, hour := hr } uu st
        = (Except.error "User not authenticated", st))
    ∧ (addExperience { userId := none, readOk := ro, writeOk := w, hour := hr } k st
        = (Except.error "User not authenticated", st))
    ∧ (incrementMessageCount { userId := none, readOk := ro, writeOk := w, hour := hr } st
        = (Except.error "User not authenticated", st))
    ∧ (addExploredTopic { userId := none, readOk := ro, writeOk := w, hour := hr } t st
        = (Except.error "User not authenticated", st))
    ∧ (unlockBadge { userId := none, readOk := ro, writeOk := w, hour := hr } "freshman" st
        = (Except.error "User not authenticated", st))
    ∧ (processUserInteraction { userId := none, readOk := ro, writeOk := w, hour := hr } msg ts st
        = (Except.error "User not authenticated", st))
    ∧ (generateUserContextSummary { userId := none, readOk := ro, writeOk := w, hour := hr } st
        = "User Level: 1\nTotal Messages: 0\nTopics Explored: None yet\nUnlocked Badges: None yet") := by
  refine ⟨rfl, rfl, rfl, rfl, rfl, ?_, rfl, rfl, ?_⟩
  · simp [addExploredTopic, getUserStats, defaultStats, updateUserStats, andThen]
  · simp [generateUserContextSummary, getUserStats, defaultStats, INITIAL_BADGES]
    decide

/-- C3 counterexample: a starting progress with explorer locked and fewer
than 3 topics (namely the single topic "x") on which adding the sequence
["a", "b", ...] unlocks explorer already after "b" — before "c" is ever
added — refuting the claim that for ANY such starting progress the sequence
["a", "b", "a", "c"] unlocks explorer only after "c". -/
theorem explorer_unlocks_before_third_distinct_claim_false :
    ("explorer" ∉ ([] : List String))
    ∧ (["x"] : List String).length < 3
    ∧ addTopics (goodEnv "u" 12) ["a", "b"]
        { row := { experience_points := 0, level := 1, total_messages := 0,
                   badges_unlocked := [], topics_explored := ["x"] }, nWrites := 0 }
      = (Except.ok (),
         { row := { experience_points := 50, level := 1, total_messages := 0,
                    badges_unlocked := ["explorer"], topics_explored := ["x", "a", "b"] },
           nWrites := 4 }) :=
  ⟨by decide, by decide, rfl⟩

/-- C3 amended: addExploredTopic is a no-op (result unchanged, no store
write) whenever the topic is already present under case-sensitive exact
match; and for any starting progress with explorer locked and an empty topic
list, adding the sequence ["a", "b", "a", "c"] keeps explorer locked through
the first three adds (the duplicate "a" being a strict no-op) and unlocks it
exactly on the "c" add, the one that brings the distinct-topic count to 3. -/
theorem addExploredTopic_explorer_unlock (u : String) (hr : Nat) :
    (∀ (st : St) (t : String), t ∈ (getUserStats (goodEnv u hr) st).topicsExplored →
        addExploredTopic (goodEnv u hr) t st = (Except.ok (), st))
    ∧ ∀ (xp lvl msgs n : Nat) (ids : List String), "explorer" ∉ ids →
        ∃ st1 st2 st3 st4 : St,
          addExploredTopic (goodEnv u hr) "a"
              { row := { experience_points := xp, level := lvl, total_messages := msgs,
                         badges_unlocked := ids, topics_explored := [] }, nWrites := n }
            = (Except.ok (), st1)
          ∧ "explorer" ∉ st1.row.badges_unlocked
          ∧ addExploredTopic (goodEnv u hr) "b" st1 = (Except.ok (), st2)
          ∧ "explorer" ∉ st2.row.badges_unlocked
          ∧ addExploredTopic (goodEnv u hr) "a" st2 = (Except.ok (), st3)
          ∧ st3 = st2
          ∧ addExploredTopic (goodEnv u hr) "c" st3 = (Except.ok (), st4)
          ∧ "explorer" ∈ st4.row.badges_unlocked := by
  constructor
  · intro st t ht
    unfold addExploredTopic
    rw [if_pos ht]
  · intro xp lvl msgs n ids h
    have hexp : ids.any (fun b => b == "explorer") = false := any_eq_false_of_not_mem ids _ h
    refine ⟨_, _, _,
      { row := { experience_points := xp + 50, level := calculateLevel (xp + 50),
                 total_messages := msgs,
                 badges_unlocked :=
                   (((mergeBadges ids).map (fun b =>
                       if b.id == "explorer" then { b with unlocked := true } else b)).filter
                     (fun b => b.unlocked)).map (fun b => b.id),
                 topics_explored := ["a", "b", "c"] }, nWrites := n + 5 },
      rfl, h, rfl, h, rfl, rfl, ?_, ?_⟩
    · simp [addExploredTopic, unlockBadge, addExperience, andThen, updateUserStats, getUserStats,
            applyUpdates, mergeBadges, INITIAL_BADGES, goodEnv, hexp]
    · exact mem_stored_of_unlocked _ ({ id := "explorer", name := "Explorer", unlocked := true })
        (List.mem_map.2 ⟨{ id := "explorer", name := "Explorer",
                           unlocked := ids.any (fun b => b == "explorer") },
          List.mem_map.2 ⟨{ id := "explorer", name := "Explorer", unlocked := false },
            by simp [INITIAL_BADGES], rfl⟩,
          by simp⟩) rfl

/-- C3 witness: the no-op clause at topic "food" already present, and the
scenario clause at a fresh row. -/
theorem addExploredTopic_explorer_unlock_witness :
    ("food" ∈ (getUserStats (goodEnv "u" 12)
        { row := { experience_points := 0, level := 1, total_messages := 0,
                   badges_unlocked := [], topics_explored := ["food"] },
          nWrites := 0 }).topicsExplored
      ∧ addExploredTopic (goodEnv "u" 12) "food"
          { row := { experience_points := 0, level := 1, total_messages := 0,
                     badges_unlocked := [], topics_explored := ["food"] }, nWrites := 0 }
        = (Except.ok (),
           { row := { experience_points := 0, level := 1, total_messages := 0,
                      badges_unlocked := [], topics_explored := ["food"] }, nWrites := 0 }))
    ∧ (("explorer" ∉ ([] : List String))
      ∧ ∃ st1 st2 st3 st4 : St,
          addExploredTopic (goodEnv "u" 12) "a"
              { row := { experience_points := 0, level := 1, total_messages := 0,
                         badges_unlocked := [], topics_explored := [] }, nWrites := 0 }
            = (Except.ok (), st1)
          ∧ "explorer" ∉ st1.row.badges_unlocked
          ∧ addExploredTopic (goodEnv "u" 12) "b" st1 = (Except.ok (), st2)
          ∧ "explorer" ∉ st2.row.badges_unlocked
          ∧ addExploredTopic (goodEnv "u" 12) "a" st2 = (Except.ok (), st3)
          ∧ st3 = st2
          ∧ addExploredTopic (goodEnv "u" 12) "c" st3 = (Except.ok (), st4)
          ∧ "explorer" ∈ st4.row.badges_unlocked) :=
  ⟨⟨by decide, (addExploredTopic_explorer_unlock "u" 12).1 _ "food" (by decide)⟩,
   ⟨by decide, (addExploredTopic_explorer_unlock "u" 12).2 0 1 0 0 [] (by decide)⟩⟩

/-- C4: unlockBadge is idempotent — for an id unknown to the catalog, or a
badge already unlocked in the persisted progress, it returns false with no
side effects (store state unchanged, no write attempted); otherwise it marks
the badge unlocked, persists it, awards exactly +50 experience and returns
true, and an immediately repeated call returns false leaving everything
unchanged, so two successive calls yield true then false with +50 experience
in total. -/
theorem unlockBadge_idempotent (u : String) (hr : Nat) (badgeId : String) (st : St) :
    ((∀ b ∈ INITIAL_BADGES, b.id ≠ badgeId) →
        unlockBadge (goodEnv u hr) badgeId st = (Except.ok false, st))
    ∧ (badgeId ∈ st.row.badges_unlocked →
        unlockBadge (goodEnv u hr) badgeId st = (Except.ok false, st))
    ∧ ((∃ b ∈ INITIAL_BADGES, b.id = badgeId) → badgeId ∉ st.row.badges_unlocked →
        ∃ st1 : St,
          unlockBadge (goodEnv u hr) badgeId st = (Except.ok true, st1)
          ∧ st1.row.experience_points = st.row.experience_points + 50
          ∧ badgeId ∈ st1.row.badges_unlocked
          ∧ unlockBadge (goodEnv u hr) badgeId st1 = (Except.ok false, st1)) := by
  refine ⟨fun h => unlockBadge_noop_unknown _ _ _ h,
          fun h => unlockBadge_noop_of_mem u hr badgeId st h,
          fun hcat hnot => ?_⟩
  have hstats : (getUserStats (goodEnv u hr) st).badges = mergeBadges st.row.badges_unlocked := by
    simp [getUserStats, goodEnv]
  obtain ⟨c0, hc0, hc0id⟩ := hcat
  rcases h2 : (mergeBadges st.row.badges_unlocked).find? (fun b => b.id == badgeId) with _ | b
  · exfalso
    rw [List.find?_eq_none] at h2
    have hm : ({ c0 with unlocked := st.row.badges_unlocked.any (fun x => x == c0.id) } : Badge)
        ∈ mergeBadges st.row.badges_unlocked := by
      rw [mergeBadges]
      exact List.mem_map.2 ⟨c0, hc0, rfl⟩
    have hcon := h2 _ hm
    simp [hc0id] at hcon
  · have hmem := List.mem_of_find?_eq_some h2
    have hpb := List.find?_some h2
    rw [mergeBadges] at hmem
    obtain ⟨c, hc, hcb⟩ := List.mem_map.1 hmem
    have hbid : b.id = c.id := by rw [← hcb]
    have hcid : c.id = badgeId := by
      have hx := hpb
      rw [hbid] at hx
      exact beq_iff_eq.1 hx
    have hbid2 : b.id = badgeId := by rw [hbid, hcid]
    have hunl : b.unlocked = false := by
      rw [← hcb]
      show st.row.badges_unlocked.any (fun x => x == c.id) = false
      rw [hcid]
      exact any_eq_false_of_not_mem _ _ hnot
    have hmemL : badgeId ∈
        ((((mergeBadges st.row.badges_unlocked).map (fun x =>
            if x.id == badgeId then { x with unlocked := true } else x)).filter
          (fun x => x.unlocked)).map (fun x => x.id)) := by
      have hb' : ({ b with unlocked := true } : Badge) ∈
          ((mergeBadges st.row.badges_unlocked).map (fun x =>
            if x.id == badgeId then { x with unlocked := true } else x)) := by
        refine List.mem_map.2 ⟨b, List.mem_of_find?_eq_some h2, ?_⟩
        simp [hbid2]
      have hm2 := mem_stored_of_unlocked _ ({ b with unlocked := true }) hb' rfl
      simpa [hbid2] using hm2
    refine ⟨{ row := { experience_points := st.row.experience_points + 50,
                       level := calculateLevel (st.row.experience_points + 50),
                       total_messages := st.row.total_messages,
                       badges_unlocked :=
                         (((mergeBadges st.row.badges_unlocked).map (fun x =>
                             if x.id == badgeId then { x with unlocked := true } else x)).filter
                           (fun x => x.unlocked)).map (fun x => x.id),
                       topics_explored := st.row.topics_explored }, nWrites := st.nWrites + 2 },
            ?_, rfl, hmemL, unlockBadge_noop_of_mem u hr badgeId _ hmemL⟩
    simp [unlockBadge, hstats, h2, hunl, updateUserStats, goodEnv, applyUpdates,
      addExperience, andThen, getUserStats, calculateNextLevelXP]

/-- C4 witness: the unknown-id clause at "bogus", the already-unlocked
clause at "freshman", and the fresh-unlock clause at "explorer". -/
theorem unlockBadge_idempotent_witness :
    ((∀ b ∈ INITIAL_BADGES, b.id ≠ "bogus")
      ∧ unlockBadge (goodEnv "u" 12) "bogus" { row := freshRow, nWrites := 0 }
        = (Except.ok false, { row := freshRow, nWrites := 0 }))
    ∧ (("freshman" ∈ ["freshman"])
      ∧ unlockBadge (goodEnv "u" 12) "freshman"
          { row := { experience_points := 0, level := 1, total_messages := 0,
                     badges_unlocked := ["freshman"], topics_explored := [] }, nWrites := 0 }
        = (Except.ok false,
           { row := { experience_points := 0, level := 1, total_messages := 0,
                      badges_unlocked := ["freshman"], topics_explored := [] }, nWrites := 0 }))
    ∧ ((∃ b ∈ INITIAL_BADGES, b.id = "explorer") ∧ ("explorer" ∉ freshRow.badges_unlocked)
      ∧ ∃ st1 : St,
          unlockBadge (goodEnv "u" 12) "explorer" { row := freshRow, nWrites := 0 }
            = (Except.ok true, st1)
          ∧ st1.row.experience_points = freshRow.experience_points + 50
          ∧ "explorer" ∈ st1.row.badges_unlocked
          ∧ unlockBadge (goodEnv "u" 12) "explorer" st1 = (Except.ok false, st1)) :=
  ⟨⟨by decide, (unlockBadge_idempotent "u" 12 "bogus" { row := freshRow, nWrites := 0 }).1
      (by decide)⟩,
   ⟨by decide, (unlockBadge_idempotent "u" 12 "freshman"
      { row := { experience_points := 0, level := 1, total_messages := 0,
                 badges_unlocked := ["freshman"], topics_explored := [] },
        nWrites := 0 }).2.1 (by decide)⟩,
   ⟨by decide, by decide,
    (unlockBadge_idempotent "u" 12 "explorer" { row := freshRow, nWrites := 0 }).2.2
      (by decide) (by decide)⟩⟩

/-- C5: the stored level is never inconsistent with stored experience —
every store write that sets experience also sets
level = floor(experience / 100) + 1 in the same write, so after any sequence
of engine operations (under any authentication, read and write outcomes)
starting from a consistent record, the persisted record still satisfies
level = floor(experience / 100) + 1. -/
theorem runOps_preserves_level_invariant (env : Env) (ops : List EngineOp) (st : St)
    (h : levelInv st.row) : levelInv (runOps env ops st).row := by
  induction ops generalizing st with
  | nil => exact h
  | cons op rest ih => exact ih (runOp env op st) (levelInv_runOp env op st h)

/-- C5 witness: the invariant holds on the fresh row and is preserved
across a concrete operation sequence. -/
theorem runOps_preserves_level_invariant_witness :
    levelInv freshRow
    ∧ levelInv (runOps (goodEnv "u" 12)
        [EngineOp.incMsg, EngineOp.addTopic "food", EngineOp.reset]
        { row := freshRow, nWrites := 0 }).row :=
  ⟨rfl, runOps_preserves_level_invariant (goodEnv "u" 12)
    [EngineOp.incMsg, EngineOp.addTopic "food", EngineOp.reset]
    { row := freshRow, nWrites := 0 } rfl⟩

/-- C6: the returned leveledUp flag and newBadges list are computed from the
before and after snapshots taken before the level-at-least-5 scholar check:
for any experience of at least 390 (so the after-snapshot level is at least 5)
with scholar still locked, the call persists the scholar unlock and its +50
bonus (final experience xp + 60, badges containing "scholar") while the
returned diff contains no badge at all — in particular not "scholar" — and
the returned leveledUp equals the comparison of the pre-scholar snapshots,
ignoring the scholar bonus. -/
theorem processUserInteraction_scholar_not_in_diff (u msg : String) (xp : Nat) (hxp : 390 ≤ xp) :
    processUserInteraction (goodEnv u 12) msg []
      { row := { experience_points := xp, level := calculateLevel xp, total_messages := 3,
                 badges_unlocked := ["freshman"], topics_explored := [] }, nWrites := 0 }
    = (Except.ok { newBadges := [],
                   leveledUp := decide (calculateLevel (xp + 10) > calculateLevel xp) },
       { row := { experience_points := xp + 60, level := calculateLevel (xp + 60),
                  total_messages := 4, badges_unlocked := ["freshman", "scholar"],
                  topics_explored := [] },
         nWrites := 4 }) := by
  have hscholar : 5 ≤ calculateLevel (xp + 10) := by unfold calculateLevel; omega
  simp [processUserInteraction, incrementMessageCount, addTopics, addExploredTopic, unlockBadge,
        addExperience, andThen, updateUserStats, getUserStats, applyUpdates, mergeBadges,
        badgeDiff, calculateNextLevelXP, defaultStats, INITIAL_BADGES, goodEnv, hscholar]
  intro a b hab
  fin_cases hab <;> rfl

/-- C6 witness: at experience 440 the call returns leveledUp = false (the
pre-scholar level does not rise) even though the persisted level becomes 6
through the scholar bonus. -/
theorem processUserInteraction_scholar_not_in_diff_witness :
    (390 ≤ 440)
    ∧ processUserInteraction (goodEnv "u" 12) "hello" []
        { row := { experience_points := 440, level := calculateLevel 440, total_messages := 3,
                   badges_unlocked := ["freshman"], topics_explored := [] }, nWrites := 0 }
      = (Except.ok { newBadges := [],
                     leveledUp := decide (calculateLevel (440 + 10) > calculateLevel 440) },
         { row := { experience_points := 440 + 60, level := calculateLevel (440 + 60),
                    total_messages := 4, badges_unlocked := ["freshman", "scholar"],
                    topics_explored := [] },
           nWrites := 4 }) :=
  ⟨by decide, processUserInteraction_scholar_not_in_diff "u" "hello" 440 (by decide)⟩

/-- C7: calculateLevel is the pure function floor(xp / 100) + 1 on every
non-negative integer xp (the floor taken over the rationals), and in
particular maps 0 to 1, 99 to 1, 100 to 2 and 250 to 3. -/
theorem calculateLevel_spec :
    (∀ xp : Nat, calculateLevel xp = ⌊(xp : ℚ) / 100⌋₊ + 1)
    ∧ calculateLevel 0 = 1 ∧ calculateLevel 99 = 1
    ∧ calculateLevel 100 = 2 ∧ calculateLevel 250 = 3 := by
  refine ⟨fun xp => ?_, rfl, rfl, rfl, rfl⟩
  rw [calculateLevel, show ((100 : ℚ)) = ((100 : ℕ) : ℚ) by norm_num, Nat.floor_div_eq_div]

/-- C8: calculateNextLevelXP is the pure function level * 100, and composes
with calculateLevel as calculateLevel (calculateNextLevelXP level) =
level + 1 — the returned value is the experience at which the current level
was entered, not the experience remaining to the next level. -/
theorem calculateNextLevelXP_spec :
    (∀ level : Nat, calculateNextLevelXP level = level * 100)
    ∧ (∀ level : Nat, calculateLevel (calculateNextLevelXP level) = level + 1) := by
  refine ⟨fun _ => rfl, fun level => ?_⟩
  simp [calculateLevel, calculateNextLevelXP, Nat.mul_div_cancel]

/-- C9: store failures on the read path are absorbed — getUserStats returns
the default progress and cannot raise when the read fails — while store
failures on the write path propagate: under failing writes, every engine
operation that attempts a store write (updateUserStats, addExperience,
incrementMessageCount, processUserInteraction, resetUserStats, and
conditionally addExploredTopic and unlockBadge) surfaces the failure to its
caller with the row left unchanged. -/
theorem store_failure_policy (oid : Option String) (w : Nat → Bool) (hr hr2 : Nat)
    (u : String) (ro : Bool) (st : St) (uu : Updates) (k : Nat)
    (msg t badgeId : String) (ts : List String) :
    (getUserStats { userId := oid, readOk := false, writeOk := w, hour := hr2 } st = defaultStats)
    ∧ (updateUserStats (failWriteEnv u ro hr) uu st
        = (Except.error "store write failed", { row := st.row, nWrites := st.nWrites + 1 }))
    ∧ (addExperience (failWriteEnv u ro hr) k st
        = (Except.error "store write failed", { row := st.row, nWrites := st.nWrites + 1 }))
    ∧ (incrementMessageCount (failWriteEnv u ro hr) st
        = (Except.error "store write failed", { row := st.row, nWrites := st.nWrites + 1 }))
    ∧ (processUserInteraction (failWriteEnv u ro hr) msg ts st
        = (Except.error "store write failed", { row := st.row, nWrites := st.nWrites + 1 }))
    ∧ (resetUserStats (failWriteEnv u ro hr) st
        = (Except.error "store write failed", { row := st.row, nWrites := st.nWrites + 1 }))
    ∧ (t ∉ (getUserStats (failWriteEnv u ro hr) st).topicsExplored →
        addExploredTopic (failWriteEnv u ro hr) t st
          = (Except.error "store write failed", { row := st.row, nWrites := st.nWrites + 1 }))
    ∧ (∀ b : Badge,
        (getUserStats (failWriteEnv u ro hr) st).badges.find? (fun x => x.id == badgeId) = some b →
        b.unlocked = false →
        unlockBadge (failWriteEnv u ro hr) badgeId st
          = (Except.error "store write failed", { row := st.row, nWrites := st.nWrites + 1 })) := by
  refine ⟨?_, ?_, ?_, ?_, ?_, ?_, ?_, ?_⟩
  · cases oid <;> rfl
  · simp [updateUserStats, failWriteEnv]
  · simp [addExperience, andThen, updateUserStats, failWriteEnv]
  · simp [incrementMessageCount, addExperience, andThen, updateUserStats, failWriteEnv]
  · simp [processUserInteraction, incrementMessageCount, addExperience, andThen, updateUserStats,
      failWriteEnv]
  · simp [resetUserStats, failWriteEnv]
  · intro h
    simp only [failWriteEnv] at h ⊢
    simp [addExploredTopic, andThen, updateUserStats, h]
  · intro b hb hbu
    simp only [failWriteEnv] at hb ⊢
    simp [unlockBadge, hb, hbu, andThen, updateUserStats]

/-- C9 witness: the policy instantiated on concrete environments and the
fresh row, including the conditional clauses. -/
theorem store_failure_policy_witness :
    (getUserStats { userId := none, readOk := false, writeOk := fun _ => true, hour := 0 }
        { row := freshRow, nWrites := 0 } = defaultStats)
    ∧ (incrementMessageCount (failWriteEnv "u" true 12) { row := freshRow, nWrites := 0 }
        = (Except.error "store write failed", { row := freshRow, nWrites := 1 }))
    ∧ (("food" ∉ (getUserStats (failWriteEnv "u" true 12)
          { row := freshRow, nWrites := 0 }).topicsExplored)
      ∧ addExploredTopic (failWriteEnv "u" true 12) "food" { row := freshRow, nWrites := 0 }
        = (Except.error "store write failed", { row := freshRow, nWrites := 1 }))
    ∧ (((getUserStats (failWriteEnv "u" true 12) { row := freshRow, nWrites := 0 }).badges.find?
          (fun x => x.id == "explorer")
        = some { id := "explorer", name := "Explorer", unlocked := false })
      ∧ unlockBadge (failWriteEnv "u" true 12) "explorer" { row := freshRow, nWrites := 0 }
        = (Except.error "store write failed", { row := freshRow, nWrites := 1 })) := by
  have h := store_failure_policy none (fun _ => true) 12 0 "u" true
    { row := freshRow, nWrites := 0 } {} 5 "m" "food" "explorer" []
  exact ⟨h.1, h.2.2.2.1,
    ⟨by decide, h.2.2.2.2.2.2.1 (by decide)⟩,
    ⟨by decide, h.2.2.2.2.2.2.2 { id := "explorer", name := "Explorer", unlocked := false }
      (by decide) rfl⟩⟩

/-- C10: every progress record returned by getUserStats has a badges list
whose ids and names equal the fixed catalog position by position (only the
unlocked flag varies, and persisted ids outside the catalog are dropped), so
any two snapshots have badges lists of equal length and the positional index
access in the badge diff of processUserInteraction is always in bounds. -/
theorem getUserStats_badges_catalog_aligned (env : Env) (st : St) (env2 : Env) (st2 : St) :
    ((getUserStats env st).badges.map (fun b => b.id) = INITIAL_BADGES.map (fun b => b.id)
      ∧ (getUserStats env st).badges.map (fun b => b.name) = INITIAL_BADGES.map (fun b => b.name))
    ∧ (getUserStats env st).badges.length = (getUserStats env2 st2).badges.length := by
  have key : ∀ (e : Env) (s : St),
      (getUserStats e s).badges.map (fun b => b.id) = INITIAL_BADGES.map (fun b => b.id)
      ∧ (getUserStats e s).badges.map (fun b => b.name) = INITIAL_BADGES.map (fun b => b.name) := by
    intro e s
    unfold getUserStats
    match e.userId with
    | none => exact ⟨rfl, rfl⟩
    | some _ =>
      by_cases h : e.readOk <;>
        simp [h, defaultStats, mergeBadges, List.map_map, Function.comp]
  have len : ∀ (e : Env) (s : St), (getUserStats e s).badges.length = INITIAL_BADGES.length := by
    intro e s
    have h := (key e s).1
    have := congrArg List.length h
    simpa using this
  exact ⟨key env st, by rw [len env st, len env2 st2]⟩
